import Mathlib

/-!
Verification of the virtio block device of rvemu (src/src/devices/virtio_blk.rs)
against its natural-language specification.

The module is shallowly embedded: Rust u32/u64 fields become `Nat` with explicit
truncation `% 2 ^ 32` / `% 2 ^ 64` where the source casts or wraps, `Vec<u8>`
becomes `List Nat`, a fallible MMIO access becomes an explicit result type, and
a Rust panic (assert or unguarded index) becomes a distinct `panic` outcome.

The host bus and CPU (crate::bus, crate::cpu) are external collaborators whose
sources are not part of the core; they are modelled from the spec (section 6):
guest memory is a byte-addressed partial function, multi-byte accesses are
little-endian, and the MMIO window base B is taken as 0 so registers are
addressed by their offsets 0x000-0x107.
-/

/-- Access widths of crate::cpu (BYTE, HALFWORD, WORD, DOUBLEWORD constants).
Modelled from the spec: the CPU collaborator provides exactly these four widths. -/
inductive ASize where
  | byte
  | halfword
  | word
  | doubleword
  deriving DecidableEq

/-- The two typed memory-access faults raised by this module (crate::exception). -/
inductive Exception where
  | loadAccessFault
  | storeAMOAccessFault
  deriving DecidableEq

/-- Result of an MMIO register access: `Ok`, a typed fault returned to the caller,
or a Rust process abort (a `panic!` or an out-of-bounds array index). -/
inductive MRes (α : Type) where
  | ok (a : α)
  | err (e : Exception)
  | panic
  deriving DecidableEq

/-- True exactly on the `ok` outcome. -/
def MRes.isOk {α : Type} : MRes α → Bool
  | .ok _ => true
  | _ => false

/-- Device register state, embedding `struct Virtio` (lines 222-242 of the source).
The Rust arrays `[u32; 2]` are modelled as two scalar fields; indexing them with a
selector greater than 1 is an unguarded array index, i.e. a panic. -/
structure Virtio where
  id : Nat
  device_features0 : Nat
  device_features1 : Nat
  device_features_sel : Nat
  driver_features0 : Nat
  driver_features1 : Nat
  driver_features_sel : Nat
  guest_page_size : Nat
  queue_sel : Nat
  queue_num : Nat
  queue_align : Nat
  queue_pfn : Nat
  queue_notify : Nat
  interrupt_status : Nat
  status : Nat
  config : List Nat
  disk : List Nat
  deriving DecidableEq

/-- `Virtio::new` (lines 246-266): all fields reset, queue_notify at the 9999 sentinel. -/
def Virtio.new : Virtio where
  id := 0
  device_features0 := 0
  device_features1 := 0
  device_features_sel := 0
  driver_features0 := 0
  driver_features1 := 0
  driver_features_sel := 0
  guest_page_size := 0
  queue_sel := 0
  queue_num := 0
  queue_align := 0
  queue_pfn := 0
  queue_notify := 9999
  interrupt_status := 0
  status := 0
  config := List.replicate 8 0
  disk := []

/-- `Virtio::is_interrupting` (lines 269-275): one-shot edge detector on queue_notify;
returns the flag and the post-state (the call resets queue_notify to the sentinel). -/
def Virtio.is_interrupting (v : Virtio) : Bool × Virtio :=
  if v.queue_notify ≠ 9999 then (true, { v with queue_notify := 9999 })
  else (false, v)

/-- `Virtio::initialize` (lines 278-280): appends the binary to the disk. -/
def Virtio.initDisk (v : Virtio) (binary : List Nat) : Virtio :=
  { v with disk := v.disk ++ binary }

/-- Modelled from the spec: crate::bus (not under src) defines the MMIO window base B;
every claim is base-relative, so the embedding takes B = 0 and addresses registers
by their offsets. -/
def VIRTIO_BASE : Nat := 0

def VIRTIO_MAGIC : Nat := VIRTIO_BASE + 0x000

def VIRTIO_VERSION : Nat := VIRTIO_BASE + 0x004

def VIRTIO_DEVICE_ID : Nat := VIRTIO_BASE + 0x008

def VIRTIO_VENDOR_ID : Nat := VIRTIO_BASE + 0x00c

def VIRTIO_DEVICE_FEATURES : Nat := VIRTIO_BASE + 0x010

def VIRTIO_DEVICE_FEATURES_SEL : Nat := VIRTIO_BASE + 0x014

def VIRTIO_DRIVER_FEATURES : Nat := VIRTIO_BASE + 0x020

def VIRTIO_DRIVER_FEATURES_SEL : Nat := VIRTIO_BASE + 0x024

def VIRTIO_GUEST_PAGE_SIZE : Nat := VIRTIO_BASE + 0x028

def VIRTIO_QUEUE_SEL : Nat := VIRTIO_BASE + 0x030

def VIRTIO_QUEUE_NUM_MAX : Nat := VIRTIO_BASE + 0x034

def VIRTIO_QUEUE_NUM : Nat := VIRTIO_BASE + 0x038

def VIRTIO_QUEUE_ALIGN : Nat := VIRTIO_BASE + 0x03c

def VIRTIO_QUEUE_PFN : Nat := VIRTIO_BASE + 0x040

def VIRTIO_QUEUE_NOTIFY : Nat := VIRTIO_BASE + 0x050

def VIRTIO_MMIO_INTERRUPT_STATUS : Nat := VIRTIO_BASE + 0x060

def VIRTIO_MMIO_INTERRUPT_ACK : Nat := VIRTIO_BASE + 0x064

def VIRTIO_STATUS : Nat := VIRTIO_BASE + 0x070

def VIRTIO_CONFIG : Nat := VIRTIO_BASE + 0x100

def VIRTIO_CONFIG_END : Nat := VIRTIO_CONFIG + 0x8

def VRING_DESC_SIZE : Nat := 16

def QUEUE_SIZE : Nat := 8

def SECTOR_SIZE : Nat := 512

/-- `Virtio::read` (lines 283-309). The match arms are translated in source order;
the Rust range pattern `VIRTIO_CONFIG..=VIRTIO_CONFIG_END` is inclusive, and a
config index beyond the 8-byte array is an unguarded index, i.e. a panic. -/
def Virtio.read (v : Virtio) (addr : Nat) (size : ASize) : MRes Nat :=
  if size = ASize.doubleword then .err .loadAccessFault
  else if addr = VIRTIO_MAGIC then .ok 0x74726976
  else if addr = VIRTIO_VERSION then .ok 0x1
  else if addr = VIRTIO_DEVICE_ID then .ok 0x2
  else if addr = VIRTIO_VENDOR_ID then .ok 0x554d4551
  else if addr = VIRTIO_DEVICE_FEATURES then
    (if v.device_features_sel = 0 then .ok v.device_features0
     else if v.device_features_sel = 1 then .ok v.device_features1
     else .panic)
  else if addr = VIRTIO_QUEUE_NUM_MAX then .ok 8
  else if addr = VIRTIO_QUEUE_PFN then .ok v.queue_pfn
  else if addr = VIRTIO_MMIO_INTERRUPT_STATUS then .ok v.interrupt_status
  else if addr = VIRTIO_STATUS then .ok v.status
  else if VIRTIO_CONFIG ≤ addr ∧ addr ≤ VIRTIO_CONFIG_END then
    (if size ≠ ASize.byte then .err .loadAccessFault
     else
       match v.config.get? (addr - VIRTIO_CONFIG) with
       | some b => .ok b
       | none => .panic)
  else .err .loadAccessFault

/-- `Virtio::write` (lines 312-350). Arms in source order; `value as u32` is
`% 2 ^ 32`; the interrupt-ACK arm panics when bit 0 of the written value is
clear; the config arm stores `(value >> (index * 8)) as u8`. -/
def Virtio.write (v : Virtio) (addr value : Nat) (size : ASize) : MRes Virtio :=
  if size = ASize.doubleword then .err .storeAMOAccessFault
  else if addr = VIRTIO_DEVICE_FEATURES_SEL then .ok { v with device_features_sel := value % 2 ^ 32 }
  else if addr = VIRTIO_DRIVER_FEATURES then
    (if v.driver_features_sel = 0 then .ok { v with driver_features0 := value % 2 ^ 32 }
     else if v.driver_features_sel = 1 then .ok { v with driver_features1 := value % 2 ^ 32 }
     else .panic)
  else if addr = VIRTIO_DRIVER_FEATURES_SEL then .ok { v with driver_features_sel := value % 2 ^ 32 }
  else if addr = VIRTIO_GUEST_PAGE_SIZE then .ok { v with guest_page_size := value % 2 ^ 32 }
  else if addr = VIRTIO_QUEUE_SEL then .ok { v with queue_sel := value % 2 ^ 32 }
  else if addr = VIRTIO_QUEUE_NUM then .ok { v with queue_num := value % 2 ^ 32 }
  else if addr = VIRTIO_QUEUE_ALIGN then .ok { v with queue_align := value % 2 ^ 32 }
  else if addr = VIRTIO_QUEUE_PFN then .ok { v with queue_pfn := value % 2 ^ 32 }
  else if addr = VIRTIO_QUEUE_NOTIFY then .ok { v with queue_notify := value % 2 ^ 32 }
  else if addr = VIRTIO_MMIO_INTERRUPT_ACK then
    (if value &&& 0x1 = 1 then .ok { v with interrupt_status := v.interrupt_status &&& 0xfffffffe }
     else .panic)
  else if addr = VIRTIO_STATUS then .ok { v with status := value % 2 ^ 32 }
  else if VIRTIO_CONFIG ≤ addr ∧ addr ≤ VIRTIO_CONFIG_END then
    (if size ≠ ASize.byte then .err .storeAMOAccessFault
     else
       let index := addr - VIRTIO_CONFIG
       if index < v.config.length then
         .ok { v with config := v.config.set index ((value >>> (index * 8)) % 256) }
       else .panic)
  else .err .storeAMOAccessFault

/-- Scenario glue: run an MMIO write, keeping the old state when it does not succeed.
Every scenario below only applies it to writes that do succeed. -/
def wstep (v : Virtio) (addr value : Nat) (size : ASize) : Virtio :=
  match v.write addr value size with
  | .ok w => w
  | _ => v

example : (Virtio.new.write VIRTIO_QUEUE_NOTIFY 0 ASize.word).isOk = true := by decide

example : Virtio.new.read VIRTIO_MAGIC ASize.word = MRes.ok 0x74726976 := by decide

/-- 2 ^ 64, the modulus of Rust u64 arithmetic. -/
def W64 : Nat := 2 ^ 64

/-- u64 addition (`wrapping_add`, and release-mode `+`). -/
def wadd (a b : Nat) : Nat := (a + b) % W64

/-- u64 multiplication (release-mode `*`). -/
def wmul (a b : Nat) : Nat := (a * b) % W64

/-- Guest physical memory as seen through the bus collaborator, modelled from the
spec (section 6): a byte-addressed partial map; an unmapped address is a typed
access fault. -/
def GMem : Type := Nat → Option Nat

/-- Point update of one mapped guest byte (the stored value is truncated to u8). -/
def memUpdate (m : GMem) (a v : Nat) : GMem :=
  fun x => if x = a then some (v % 256) else m x

/-- `cpu.bus.read(addr, size)` for a size of `n` bytes, modelled from the spec:
little-endian assembly of consecutive bytes; a fault if any byte is unmapped. -/
def busReadBytes (m : GMem) : Nat → Nat → Option Nat
  | _, 0 => some 0
  | a, n + 1 =>
    match m a, busReadBytes m (wadd a 1) n with
    | some b, some rest => some (b + 256 * rest)
    | _, _ => none

/-- `cpu.bus.read(addr, BYTE)`. -/
def busReadByte (m : GMem) (a : Nat) : Option Nat := m a

/-- `cpu.bus.write(addr, value, BYTE)`: a fault if the byte is unmapped. -/
def busWriteByte (m : GMem) (a v : Nat) : Option GMem :=
  match m a with
  | none => none
  | some _ => some (memUpdate m a v)

/-- `cpu.bus.write(addr, value, size)` for `n` bytes, little-endian. -/
def busWriteBytes : GMem → Nat → Nat → Nat → Option GMem
  | m, _, _, 0 => some m
  | m, a, v, n + 1 =>
    match m a with
    | none => none
    | some _ => busWriteBytes (memUpdate m a v) (wadd a 1) (v / 256) n

/-- `struct VirtqDesc` (lines 134-143): all four fields widened to u64. -/
structure VirtqDesc where
  addr : Nat
  len : Nat
  flags : Nat
  next : Nat
  deriving DecidableEq

/-- `VirtqDesc::new` (lines 148-155): four fixed-offset reads (0/8/12/14, widths
8/4/2/2 bytes); any memory fault propagates. -/
def VirtqDesc.new (m : GMem) (a : Nat) : Option VirtqDesc :=
  match busReadBytes m a 8, busReadBytes m (wadd a 8) 4,
        busReadBytes m (wadd a 12) 2, busReadBytes m (wadd a 14) 2 with
  | some ad, some ln, some fl, some nx => some ⟨ad, ln, fl, nx⟩
  | _, _, _, _ => none

/-- Result of a step of `disk_access`: the machine state is carried on every
outcome, because the Rust code mutates the cpu in place before a `?` early
return, and a panic aborts with whatever state was reached. -/
inductive RRes (α : Type) where
  | ok (a : α)
  | fault (e : Exception) (a : α)
  | panic (a : α)
  deriving DecidableEq

/-- The carried state of a `disk_access` outcome. -/
def RRes.val {α : Type} : RRes α → α
  | .ok a => a
  | .fault _ a => a
  | .panic a => a

/-- True exactly on the `ok` outcome. -/
def RRes.isOk {α : Type} : RRes α → Bool
  | .ok _ => true
  | _ => false

/-- True exactly on the `fault` outcome. -/
def RRes.isFault {α : Type} : RRes α → Bool
  | .fault _ _ => true
  | _ => false

/-- True exactly on the `panic` outcome. -/
def RRes.isPanic {α : Type} : RRes α → Bool
  | .panic _ => true
  | _ => false

/-- `Virtio::read_disk` (lines 361-363): `self.disk[addr]` with no bounds check;
`none` is the unguarded Vec index, i.e. a process abort. -/
def read_disk (disk : List Nat) (addr : Nat) : Option Nat :=
  disk[addr]?

/-- `Virtio::write_disk` (lines 365-367): `self.disk[addr] = value as u8` with no
bounds check; `none` is the unguarded Vec index, i.e. a process abort. -/
def write_disk (disk : List Nat) (addr value : Nat) : Option (List Nat) :=
  if addr < disk.length then some (disk.set addr (value % 256)) else none

/-- `Virtio::desc_addr` (lines 357-359): `queue_pfn as u64 * guest_page_size as u64`. -/
def Virtio.desc_addr (v : Virtio) : Nat :=
  wmul v.queue_pfn v.guest_page_size

/-- `Virtio::get_new_id` (lines 352-355): wrapping increment of the id counter. -/
def Virtio.get_new_id (v : Virtio) : Nat × Virtio :=
  ((v.id + 1) % W64, { v with id := (v.id + 1) % W64 })

/-- The guest-to-device transfer loop of `disk_access` (lines 443-449): for each
`i` below `desc1.len`, read one guest byte at `desc1.addr + i` and store it at
disk offset `sector * 512 + i` through `write_disk`. -/
def memToDisk (mem : GMem) (dataAddr sb : Nat) : Nat → Nat → List Nat → RRes (List Nat)
  | _, 0, disk => .ok disk
  | i, n + 1, disk =>
    match busReadByte mem (wadd dataAddr i) with
    | none => .fault .loadAccessFault disk
    | some data =>
      match write_disk disk (wadd sb i) data with
      | some disk2 => memToDisk mem dataAddr sb (i + 1) n disk2
      | none => .panic disk

/-- The device-to-guest transfer loop of `disk_access` (lines 450-456): for each
`i` below `desc1.len`, read disk offset `sector * 512 + i` through `read_disk`
and write the byte to guest memory at `desc1.addr + i`. -/
def diskToMem (disk : List Nat) (dataAddr sb : Nat) : Nat → Nat → GMem → RRes GMem
  | _, 0, mem => .ok mem
  | i, n + 1, mem =>
    match read_disk disk (wadd sb i) with
    | none => .panic mem
    | some data =>
      match busWriteByte mem (wadd dataAddr i) data with
      | some mem2 => diskToMem disk dataAddr sb (i + 1) n mem2
      | none => .fault .storeAMOAccessFault mem

/-- Lines 411-415 of `disk_access`: the two available-ring reads exactly as the
code performs them — a 16-bit read at `avail_addr + 1`, then a 16-bit read at
`avail_addr + (offset % QUEUE_SIZE) + 2` giving the head descriptor index. -/
def availHead (mem : GMem) (avail_addr : Nat) : Option (Nat × Nat) :=
  match busReadBytes mem (wadd avail_addr 1) 2 with
  | none => none
  | some offset =>
    match busReadBytes mem (wadd (wadd avail_addr (offset % QUEUE_SIZE)) 2) 2 with
    | none => none
    | some index => some (offset, index)

/-- Modelled from the spec (claim C2 wording): read the running index as a 16-bit
value at the idx field (ring base + 2), then read the head descriptor index from
the ring-entry slot at ring base + 4 + 2 * (index mod queue size). -/
def availHeadPerSpec (mem : GMem) (avail_addr : Nat) : Option (Nat × Nat) :=
  match busReadBytes mem (wadd avail_addr 2) 2 with
  | none => none
  | some idx =>
    match busReadBytes mem (wadd avail_addr (wadd 4 (wmul 2 (idx % QUEUE_SIZE)))) 2 with
    | none => none
    | some head => some (idx, head)

/-- The prefix of `disk_access` from the available-ring reads through the
optimistic status write (lines 411-428): locate the head, read the header and
data descriptors, read the status target address stored at the third slot, and
immediately write a zero status byte there. No state other than the status byte
is written, so a fault leaves guest memory unchanged. -/
def daPhase1 (mem : GMem) (desc_addr avail_addr : Nat) :
    Except Exception (VirtqDesc × VirtqDesc × Nat × GMem) :=
  match availHead mem avail_addr with
  | none => .error .loadAccessFault
  | some (_, index) =>
    match VirtqDesc.new mem (wadd desc_addr (wmul VRING_DESC_SIZE index)) with
    | none => .error .loadAccessFault
    | some desc0 =>
      match VirtqDesc.new mem (wadd desc_addr (wmul VRING_DESC_SIZE desc0.next)) with
      | none => .error .loadAccessFault
      | some desc1 =>
        match busReadBytes mem (wadd desc_addr (wmul VRING_DESC_SIZE desc1.next)) 8 with
        | none => .error .loadAccessFault
        | some desc2_addr =>
          match busWriteByte mem desc2_addr 0 with
          | none => .error .storeAMOAccessFault
          | some mem1 => .ok (desc0, desc1, desc2_addr, mem1)

/-- The whole machine visible to `disk_access`: the device plus guest memory. -/
structure Machine where
  virtio : Virtio
  mem : GMem

/-- The completion tail of `disk_access` (lines 468-471): allocate the next
request id and write `id % QUEUE_SIZE` as a 16-bit value at `used_addr + 2`. -/
def daFinish (v : Virtio) (mem : GMem) (used_addr : Nat) : RRes Machine :=
  match v.get_new_id with
  | (newId, v2) =>
    match busWriteBytes mem (wadd used_addr 2) (newId % QUEUE_SIZE) 2 with
    | none => .fault .storeAMOAccessFault ⟨v2, mem⟩
    | some mem2 => .ok ⟨v2, mem2⟩

/-- `Virtio::disk_access` (lines 371-472): set interrupt-status bit 0, compute the
three queue areas, run the phase-1 walk and status write, read the sector from the
header payload, transfer in the direction given by bit 1 of the data descriptor's
flags, then write the used-ring id. -/
def Virtio.disk_access (M : Machine) : RRes Machine :=
  let v1 := { M.virtio with interrupt_status := M.virtio.interrupt_status ||| 0x1 }
  let dA := v1.desc_addr
  let availA := wadd dA 0x40
  let usedA := wadd dA 4096
  match daPhase1 M.mem dA availA with
  | .error e => .fault e ⟨v1, M.mem⟩
  | .ok (desc0, desc1, _, mem1) =>
    match busReadBytes mem1 (wadd desc0.addr 8) 8 with
    | none => .fault .loadAccessFault ⟨v1, mem1⟩
    | some sector =>
      if desc1.flags &&& 2 = 0 then
        match memToDisk mem1 desc1.addr (wmul sector SECTOR_SIZE) 0 desc1.len v1.disk with
        | .ok d2 => daFinish { v1 with disk := d2 } mem1 usedA
        | .fault e d2 => .fault e ⟨{ v1 with disk := d2 }, mem1⟩
        | .panic d2 => .panic ⟨{ v1 with disk := d2 }, mem1⟩
      else
        match diskToMem v1.disk desc1.addr (wmul sector SECTOR_SIZE) 0 desc1.len mem1 with
        | .ok m2 => daFinish v1 m2 usedA
        | .fault e m2 => .fault e ⟨v1, m2⟩
        | .panic m2 => .panic ⟨v1, m2⟩

/-- A window of `n` consecutive guest bytes starting at `base`, as a list. -/
def memWindow (m : GMem) (base n : Nat) : List (Option Nat) :=
  (List.range n).map (fun i => m (base + i))

/-- The 48 bytes of a three-descriptor table for the scenarios: descriptor 0 is
the header (addr 256, len 16, flags NEXT, next 1), descriptor 1 is the data
buffer (addr 1024, length and flags as given, next 2), and the third 16-byte
slot starts with the status target address 48, little-endian. -/
def descBytes (len1 flags1 : Nat) : List Nat :=
  [0, 1, 0, 0, 0, 0, 0, 0, 16, 0, 0, 0, 1, 0, 1, 0] ++
  ([0, 4, 0, 0, 0, 0, 0, 0] ++ ([len1 % 256, (len1 / 256) % 256, 0, 0] ++ [flags1, 0, 2, 0])) ++
  [48, 0, 0, 0, 0, 0, 0, 0, 0, 0, 0, 0, 0, 0, 0, 0]

/-- Guest memory for the end-to-end scenarios, laid out for guest page size 4096
and queue PFN 1 (descriptor table at 4096, available ring at 4160, used ring at
8192): a status byte at 48, a 16-byte request header at 256 whose sector field
(offset +8) is the given sector, a 512-byte data window at 1024, the descriptor
table, an all-zero available ring, and the used-ring bytes. Everything else is
unmapped. -/
def chainMem (sector flags1 len1 : Nat) (dataBytes : List Nat) : GMem :=
  fun a =>
    if a = 48 then some 0
    else if 256 ≤ a ∧ a < 272 then (if a = 264 then some sector else some 0)
    else if 1024 ≤ a ∧ a < 1536 then some (dataBytes.getD (a - 1024) 0)
    else if 4096 ≤ a ∧ a < 4144 then some ((descBytes len1 flags1).getD (a - 4096) 0)
    else if 4160 ≤ a ∧ a < 4176 then some 0
    else if 8192 ≤ a ∧ a < 8200 then some 0
    else none

/-- Device for the C1 end-to-end scenario: freshly constructed, backing store of
512 zero bytes, then over MMIO: guest page size 4096, queue PFN 1, and the
queue-notify write that triggers the request. -/
def vC1 : Virtio :=
  wstep (wstep (wstep (Virtio.initDisk Virtio.new (List.replicate 512 0))
    VIRTIO_GUEST_PAGE_SIZE 4096 ASize.word) VIRTIO_QUEUE_PFN 1 ASize.word)
    VIRTIO_QUEUE_NOTIFY 0 ASize.word

/-- C1 machine: the configured device plus a 3-descriptor write-direction chain
(sector 0, data flags 1, length 512) whose data buffer is 512 bytes of 0xAA. -/
def M1 : Machine :=
  ⟨vC1, chainMem 0 1 512 (List.replicate 512 0xAA)⟩

example : vC1.guest_page_size = 4096 ∧ vC1.queue_pfn = 1 ∧ vC1.queue_notify = 0 := by decide

set_option maxRecDepth 8000

example :
    daPhase1 M1.mem 4096 4160 =
      Except.ok (⟨256, 16, 1, 1⟩, ⟨1024, 512, 1, 2⟩, 48, memUpdate M1.mem 48 0) := rfl

/-- Guest memory of the C1 scenario right after the optimistic status write. -/
def mem1C1 : GMem := memUpdate M1.mem 48 0

theorem getD_replicate_lt (n i a d : Nat) (h : i < n) : (List.replicate n a).getD i d = a := by
  simp [List.getD, List.getElem?_replicate, h]

theorem mem1C1_data (j : Nat) (hj : j < 512) : mem1C1 (1024 + j) = some 0xAA := by
  simp only [mem1C1, memUpdate]
  rw [if_neg (by omega)]
  show chainMem 0 1 512 (List.replicate 512 0xAA) (1024 + j) = some 0xAA
  simp only [chainMem]
  rw [if_neg (by omega), if_neg (by omega),
    if_pos (⟨by omega, by omega⟩ : 1024 ≤ 1024 + j ∧ 1024 + j < 1536),
    Nat.add_sub_cancel_left, getD_replicate_lt _ _ _ _ hj]

/-- Success and effect of the guest-to-device loop: when every source byte up
from `i` is mapped and the disk is long enough, the loop succeeds, preserves the
length, stores each source byte (truncated to u8) at `sb + j`, and leaves every
other disk offset unchanged. -/
theorem memToDisk_ok (mem : GMem) (dataAddr sb : Nat) :
    ∀ (count i : Nat) (disk : List Nat),
      dataAddr + i + count ≤ W64 →
      sb + i + count ≤ disk.length →
      disk.length ≤ W64 →
      (∀ j, i ≤ j → j < i + count → (mem (dataAddr + j)).isSome = true) →
      ∃ disk2, memToDisk mem dataAddr sb i count disk = RRes.ok disk2 ∧
        disk2.length = disk.length ∧
        (∀ j, i ≤ j → j < i + count →
          disk2[sb + j]? = (mem (dataAddr + j)).map (fun b => b % 256)) ∧
        (∀ k, k < sb + i ∨ sb + i + count ≤ k → disk2[k]? = disk[k]?) := by
  intro count
  induction count with
  | zero =>
    intro i disk _ _ _ _
    exact ⟨disk, rfl, rfl, fun j hj hj2 => absurd hj2 (by omega), fun k _ => rfl⟩
  | succ n ih =>
    intro i disk h1 h2 h3 h4
    have hma : wadd dataAddr i = dataAddr + i := Nat.mod_eq_of_lt (by omega)
    have hsb : wadd sb i = sb + i := Nat.mod_eq_of_lt (by omega)
    obtain ⟨b, hb⟩ := Option.isSome_iff_exists.mp (h4 i le_rfl (by omega))
    have hlt : sb + i < disk.length := by omega
    have hstep : memToDisk mem dataAddr sb i (n + 1) disk =
        memToDisk mem dataAddr sb (i + 1) n (disk.set (sb + i) (b % 256)) := by
      simp only [memToDisk, busReadByte, hma, hb, write_disk, hsb, if_pos hlt]
    obtain ⟨disk2, hrun, hlen, hcopy, hkeep⟩ :=
      ih (i + 1) (disk.set (sb + i) (b % 256)) (by omega)
        (by rw [List.length_set]; omega) (by rw [List.length_set]; omega)
        (fun j hj hj2 => h4 j (by omega) (by omega))
    refine ⟨disk2, by rw [hstep]; exact hrun, by rw [hlen, List.length_set], ?_, ?_⟩
    · intro j hj hjlt
      rcases Nat.eq_or_lt_of_le hj with hji | hji
      · rw [← hji]
        have : disk2[sb + i]? = (disk.set (sb + i) (b % 256))[sb + i]? :=
          hkeep (sb + i) (Or.inl (by omega))
        rw [this, List.getElem?_set_eq_of_lt _ (by omega), hb]
        rfl
      · exact hcopy j (by omega) (by omega)
    · intro k hk
      have : disk2[k]? = (disk.set (sb + i) (b % 256))[k]? := hkeep k (by omega)
      rw [this, List.getElem?_set_ne (by omega)]

/-- Success and effect of the device-to-guest loop: when every disk offset up
from `sb + i` is in range and every target guest byte is mapped, the loop
succeeds, writes each disk byte (truncated to u8) at `dataAddr + j`, and leaves
every other guest byte unchanged. -/
theorem diskToMem_ok (disk : List Nat) (dataAddr sb : Nat) :
    ∀ (count i : Nat) (mem : GMem),
      dataAddr + i + count ≤ W64 →
      sb + i + count ≤ disk.length →
      disk.length ≤ W64 →
      (∀ j, i ≤ j → j < i + count → (mem (dataAddr + j)).isSome = true) →
      ∃ mem2, diskToMem disk dataAddr sb i count mem = RRes.ok mem2 ∧
        (∀ j, i ≤ j → j < i + count →
          mem2 (dataAddr + j) = disk[sb + j]?.map (fun b => b % 256)) ∧
        (∀ x, x < dataAddr + i ∨ dataAddr + i + count ≤ x → mem2 x = mem x) := by
  intro count
  induction count with
  | zero =>
    intro i mem _ _ _ _
    exact ⟨mem, rfl, fun j hj hj2 => absurd hj2 (by omega), fun x _ => rfl⟩
  | succ n ih =>
    intro i mem h1 h2 h3 h4
    have hma : wadd dataAddr i = dataAddr + i := Nat.mod_eq_of_lt (by omega)
    have hsb : wadd sb i = sb + i := Nat.mod_eq_of_lt (by omega)
    have hlt : sb + i < disk.length := by omega
    obtain ⟨c, hc⟩ : ∃ c, disk[sb + i]? = some c := ⟨disk[sb + i], List.getElem?_eq_getElem hlt⟩
    obtain ⟨b, hb⟩ := Option.isSome_iff_exists.mp (h4 i le_rfl (by omega))
    have hstep : diskToMem disk dataAddr sb i (n + 1) mem =
        diskToMem disk dataAddr sb (i + 1) n (memUpdate mem (dataAddr + i) c) := by
      simp only [diskToMem, read_disk, hsb, hc, busWriteByte, hma, hb]
    obtain ⟨mem2, hrun, hcopy, hkeep⟩ :=
      ih (i + 1) (memUpdate mem (dataAddr + i) c) (by omega) (by omega) h3
        (fun j hj hj2 => by
          by_cases hx : dataAddr + j = dataAddr + i
          · simp [memUpdate, hx]
          · simp only [memUpdate, if_neg hx]
            exact h4 j (by omega) (by omega))
    refine ⟨mem2, by rw [hstep]; exact hrun, ?_, ?_⟩
    · intro j hj hjlt
      rcases Nat.eq_or_lt_of_le hj with hji | hji
      · rw [← hji]
        have : mem2 (dataAddr + i) = memUpdate mem (dataAddr + i) c (dataAddr + i) :=
          hkeep (dataAddr + i) (Or.inl (by omega))
        rw [this, hc]
        simp [memUpdate]
      · exact hcopy j (by omega) (by omega)
    · intro x hx
      have : mem2 x = memUpdate mem (dataAddr + i) c x := hkeep x (by omega)
      rw [this]
      simp only [memUpdate, if_neg (by omega : x ≠ dataAddr + i)]

/-- When the walk and status write succeed, the sector read succeeds, and bit 1
of the data descriptor's flags is clear, `disk_access` is the guest-to-device
loop on `desc1.len` bytes followed by the used-ring completion write; here with
a loop that completes successfully. -/
theorem disk_access_write_ok (M : Machine) (d0 d1 : VirtqDesc) (sA : Nat)
    (mem1 : GMem) (sector : Nat) (d2 : List Nat)
    (h1 : daPhase1 M.mem (wmul M.virtio.queue_pfn M.virtio.guest_page_size)
        (wadd (wmul M.virtio.queue_pfn M.virtio.guest_page_size) 0x40)
        = Except.ok (d0, d1, sA, mem1))
    (h2 : busReadBytes mem1 (wadd d0.addr 8) 8 = some sector)
    (h3 : d1.flags &&& 2 = 0)
    (h4 : memToDisk mem1 d1.addr (wmul sector SECTOR_SIZE) 0 d1.len M.virtio.disk
        = RRes.ok d2) :
    Virtio.disk_access M =
      daFinish { M.virtio with interrupt_status := M.virtio.interrupt_status ||| 0x1, disk := d2 }
        mem1 (wadd (wmul M.virtio.queue_pfn M.virtio.guest_page_size) 4096) := by
  simp only [Virtio.disk_access, Virtio.desc_addr]
  rw [h1]
  simp only []
  rw [h2]
  simp only []
  rw [if_pos h3, h4]

/-- The device-to-guest counterpart: when bit 1 of the data descriptor's flags is
set, `disk_access` runs the disk-to-memory loop and then the completion write. -/
theorem disk_access_read_ok (M : Machine) (d0 d1 : VirtqDesc) (sA : Nat)
    (mem1 : GMem) (sector : Nat) (m2 : GMem)
    (h1 : daPhase1 M.mem (wmul M.virtio.queue_pfn M.virtio.guest_page_size)
        (wadd (wmul M.virtio.queue_pfn M.virtio.guest_page_size) 0x40)
        = Except.ok (d0, d1, sA, mem1))
    (h2 : busReadBytes mem1 (wadd d0.addr 8) 8 = some sector)
    (h3 : ¬(d1.flags &&& 2 = 0))
    (h4 : diskToMem M.virtio.disk d1.addr (wmul sector SECTOR_SIZE) 0 d1.len mem1
        = RRes.ok m2) :
    Virtio.disk_access M =
      daFinish { M.virtio with interrupt_status := M.virtio.interrupt_status ||| 0x1 }
        m2 (wadd (wmul M.virtio.queue_pfn M.virtio.guest_page_size) 4096) := by
  simp only [Virtio.disk_access, Virtio.desc_addr]
  rw [h1]
  simp only []
  rw [h2]
  simp only []
  rw [if_neg h3, h4]

/-- Full characterization of the C1 scenario run: the request succeeds, the disk
becomes 512 bytes of 0xAA, the id counter becomes 1, the used-ring bytes at
8194/8195 hold the halfword 1, and the rest of the final state is as reached. -/
theorem diskAccessM1_eq :
    Virtio.disk_access M1 =
      RRes.ok ⟨{ M1.virtio with interrupt_status := 1, disk := List.replicate 512 0xAA, id := 1 },
        memUpdate (memUpdate mem1C1 8194 1) 8195 0⟩ := by
  obtain ⟨d2, hrun, hlen, hcopy, _⟩ :=
    memToDisk_ok mem1C1 1024 0 512 0 (List.replicate 512 0)
      (by norm_num [W64]) (by simp) (by norm_num [W64])
      (fun j _ hjlt => by rw [mem1C1_data j (by omega)]; rfl)
  have hd2 : d2 = List.replicate 512 0xAA := by
    refine List.ext_getElem? fun n => ?_
    by_cases hn : n < 512
    · have hc := hcopy n (Nat.zero_le n) (by omega)
      rw [Nat.zero_add] at hc
      rw [hc, mem1C1_data n hn, List.getElem?_replicate, if_pos hn]
      rfl
    · rw [List.getElem?_eq_none (by simp at hlen ⊢; omega),
        List.getElem?_eq_none (by simp; omega)]
  subst hd2
  have hda := disk_access_write_ok M1 ⟨256, 16, 1, 1⟩ ⟨1024, 512, 1, 2⟩ 48 mem1C1 0
    (List.replicate 512 0xAA) (by rfl) (by rfl) (by decide) hrun
  rw [hda]
  rfl

/-- Claim C1 (amended): in the end-to-end scenario — fresh device, 512-byte
zeroed backing store, guest page size 4096 and queue PFN 1 over MMIO, a
3-descriptor chain at 4096 with write-direction bit clear, a 512-byte 0xAA
source buffer and sector 0, triggered by a queue-notify write — `disk_access`
succeeds, copies exactly 512 bytes of 0xAA into backing-store offsets 0..511,
writes 1 (the incremented request counter mod queue size, not 0) as the first
used-ring id at used-ring base + 2, and `is_interrupting` is true on the first
call and false on the next call with no intervening notify. -/
theorem end_to_end_write_request :
    vC1.guest_page_size = 4096 ∧ vC1.queue_pfn = 1 ∧
    (Virtio.disk_access M1).isOk = true ∧
    (Virtio.disk_access M1).val.virtio.disk = List.replicate 512 0xAA ∧
    busReadBytes (Virtio.disk_access M1).val.mem 8194 2 = some 1 ∧
    ((Virtio.disk_access M1).val.virtio.is_interrupting).1 = true ∧
    (((Virtio.disk_access M1).val.virtio.is_interrupting).2.is_interrupting).1 = false := by
  rw [diskAccessM1_eq]
  exact ⟨rfl, rfl, rfl, rfl, rfl, rfl, rfl⟩

/-- Claim C1 counterexample: in that very scenario the first used-ring id the
device writes is the 16-bit value 1, not 0 — `get_new_id` increments before
returning, so the first completed request is reported with id 1. -/
theorem first_used_id_is_one_not_zero :
    busReadBytes (Virtio.disk_access M1).val.mem 8194 2 = some 1 ∧
    (some 1 : Option Nat) ≠ some 0 := by
  rw [diskAccessM1_eq]
  exact ⟨rfl, by decide⟩

/-- C6 machine: the C1 layout but an empty backing store, write direction. -/
def M6w : Machine :=
  ⟨{ vC1 with disk := [] }, chainMem 0 1 512 (List.replicate 512 0xAA)⟩

/-- C6 machine: the C1 layout but an empty backing store, read direction. -/
def M6r : Machine :=
  ⟨{ vC1 with disk := [] }, chainMem 0 2 512 (List.replicate 512 0xAA)⟩

/-- Claim C6: with an empty backing store, a transfer whose first disk index is
already out of bounds ends in the unguarded-index abort (`disk[addr]` panics),
not in a distinct reportable fault, in both transfer directions. -/
theorem disk_oob_unguarded_abort :
    (Virtio.disk_access M6w).isPanic = true ∧ (Virtio.disk_access M6w).isFault = false ∧
    (Virtio.disk_access M6r).isPanic = true ∧ (Virtio.disk_access M6r).isFault = false := by
  exact ⟨rfl, rfl, rfl, rfl⟩

/-- C7 counterexample machine: a fresh device over fully unmapped guest memory,
so the very first available-ring read of `disk_access` faults. -/
def M7 : Machine := ⟨Virtio.new, fun _ => none⟩

/-- Claim C7 counterexample: `disk_access` returns a memory-access fault on its
very first guest read, yet interrupt-status bit 0 — 0 beforehand — is already
set in the state it leaves behind, contradicting the claim that a partway fault
leaves bit 0 unset. -/
theorem interrupt_bit_set_despite_fault :
    Virtio.new.interrupt_status = 0 ∧
    (Virtio.disk_access M7).isFault = true ∧
    (Virtio.disk_access M7).val.virtio.interrupt_status = 1 := by
  exact ⟨rfl, rfl, rfl⟩

/-- Claim C7 (amended): `disk_access` sets interrupt-status bit 0 unconditionally
at entry, before any guest-memory access — so after every invocation, whatever
the outcome (success, fault or abort), bit 0 is set in the resulting state; on a
completed request it also increments the request-id counter and writes
`id mod queue_size` as a 16-bit value at used-ring base + 2, as the concrete C1
run shows (id 1, halfword 1 at 8194). -/
theorem interrupt_bit_set_on_entry :
    (∀ M : Machine, ((Virtio.disk_access M).val.virtio.interrupt_status).testBit 0 = true) ∧
    (Virtio.disk_access M1).val.virtio.id = 1 ∧
    busReadBytes (Virtio.disk_access M1).val.mem 8194 2 = some 1 := by
  have hbit : ∀ x : Nat, (x ||| 1).testBit 0 = true := fun x => by simp
  have hfin : ∀ (v : Virtio) (mem : GMem) (ua : Nat),
      ((daFinish v mem ua).val).virtio.interrupt_status = v.interrupt_status := by
    intro v mem ua
    simp only [daFinish, Virtio.get_new_id]
    split <;> rfl
  refine ⟨?_, ?_, ?_⟩
  · intro M
    simp only [Virtio.disk_access]
    split
    · exact hbit _
    · split
      · exact hbit _
      · split
        · split
          · rw [hfin]; exact hbit _
          · exact hbit _
          · exact hbit _
        · split
          · rw [hfin]; exact hbit _
          · exact hbit _
          · exact hbit _
  · rw [diskAccessM1_eq]
    rfl
  · rw [diskAccessM1_eq]
    rfl

/-- C2 fixture memory: one 8-byte available-ring image at address 0 with
flags = 0, idx = 1, ring[0] = 5, ring[1] = 7. -/
def memC2 : GMem :=
  fun a => if a < 8 then some ([0, 0, 1, 0, 5, 0, 7, 0].getD a 0) else none

/-- Claim C2: on this ring image the code's two reads (a 16-bit read at ring
base + 1, then one at ring base + (offset mod queue size) + 2) produce offset
256 and head 1, while the claimed locations (idx at base + 2, head at
base + 4 + 2 * (idx mod queue size)) give idx 1 and head 7 — the code reads
from different addresses than the claim states and obtains a different head. -/
theorem avail_ring_read_locations_diverge :
    availHead memC2 0 = some (256, 1) ∧
    availHeadPerSpec memC2 0 = some (1, 7) ∧
    ((1 : Nat) ≠ 7) := by
  exact ⟨rfl, rfl, by decide⟩

/-- Claim C3: writing a value with bit 0 clear (0, or 2 with only bit 1 set) to
the Interrupt ACK register hits the `panic!` arm — an unconditional process
abort, not an error reported to the caller. -/
theorem interrupt_ack_bit0_clear_aborts :
    Virtio.write Virtio.new VIRTIO_MMIO_INTERRUPT_ACK 0 ASize.word = MRes.panic ∧
    Virtio.write Virtio.new VIRTIO_MMIO_INTERRUPT_ACK 2 ASize.word = MRes.panic := by
  exact ⟨rfl, rfl⟩

/-- Claim C4 counterexample: writing byte 0xAB to configuration-space offset 1
and reading it back returns 0, not 0xAB — the write stores
`(value >> (index * 8)) as u8`, so the round-trip fails for every offset
other than 0 whenever the value's shifted byte differs. -/
theorem config_roundtrip_fails_at_offset_one :
    (Virtio.write Virtio.new (VIRTIO_CONFIG + 1) 0xAB ASize.byte).isOk = true ∧
    Virtio.read (wstep Virtio.new (VIRTIO_CONFIG + 1) 0xAB ASize.byte)
      (VIRTIO_CONFIG + 1) ASize.byte = MRes.ok 0 ∧
    (MRes.ok 0 : MRes Nat) ≠ MRes.ok 0xAB := by
  exact ⟨rfl, rfl, by decide⟩

/-- Claim C4 (amended): for each configuration offset i < 8 and every value v,
a byte write succeeds and a byte read-back returns `(v >>> (i * 8)) % 256` —
an exact round-trip only at offset 0 — and every non-byte access to that
offset faults, load side and store side. -/
theorem config_byte_write_shifted_readback (i v : Nat) (hi : i < 8) :
    (Virtio.write Virtio.new (VIRTIO_CONFIG + i) v ASize.byte).isOk = true ∧
    Virtio.read (wstep Virtio.new (VIRTIO_CONFIG + i) v ASize.byte)
      (VIRTIO_CONFIG + i) ASize.byte = MRes.ok ((v >>> (i * 8)) % 256) ∧
    (∀ s : ASize, s ≠ ASize.byte →
      Virtio.read Virtio.new (VIRTIO_CONFIG + i) s = MRes.err Exception.loadAccessFault ∧
      Virtio.write Virtio.new (VIRTIO_CONFIG + i) v s = MRes.err Exception.storeAMOAccessFault) := by
  interval_cases i <;>
    · refine ⟨rfl, rfl, ?_⟩
      intro s hs
      cases s <;> first | exact absurd rfl hs | exact ⟨rfl, rfl⟩

/-- Witness for C4: offset 1, value 0xAB. -/
theorem config_byte_write_shifted_readback_witness :
    (Virtio.write Virtio.new (VIRTIO_CONFIG + 1) 0xAB ASize.byte).isOk = true ∧
    Virtio.read (wstep Virtio.new (VIRTIO_CONFIG + 1) 0xAB ASize.byte)
      (VIRTIO_CONFIG + 1) ASize.byte = MRes.ok ((0xAB >>> (1 * 8)) % 256) ∧
    (∀ s : ASize, s ≠ ASize.byte →
      Virtio.read Virtio.new (VIRTIO_CONFIG + 1) s = MRes.err Exception.loadAccessFault ∧
      Virtio.write Virtio.new (VIRTIO_CONFIG + 1) 0xAB s = MRes.err Exception.storeAMOAccessFault) :=
  config_byte_write_shifted_readback 1 0xAB (by decide)

/-- Claim C5 counterexample: no feature word can be written and then read back
over MMIO — the device-features register rejects writes with a store fault,
and the driver-features register (whose writes succeed) rejects reads with a
load fault, so the claimed write-then-read round-trip fails at selector 0. -/
theorem feature_word_roundtrip_impossible :
    Virtio.write Virtio.new VIRTIO_DEVICE_FEATURES 5 ASize.word
      = MRes.err Exception.storeAMOAccessFault ∧
    (Virtio.write Virtio.new VIRTIO_DRIVER_FEATURES 5 ASize.word).isOk = true ∧
    Virtio.read (wstep Virtio.new VIRTIO_DRIVER_FEATURES 5 ASize.word)
      VIRTIO_DRIVER_FEATURES ASize.word = MRes.err Exception.loadAccessFault := by
  exact ⟨rfl, rfl, rfl⟩

/-- Claim C5 (amended): for each valid selector (0 or 1), setting the
driver-features selector and writing a 32-bit value to the driver-features
register stores that value in the selected internal feature word; but the word
is not readable back over MMIO (reading the driver-features register faults),
and the readable device-features register is read-only (writing it faults), so
no write-then-read round-trip exists at the register interface. -/
theorem driver_feature_word_stored_not_readable (s val : Nat) (hs : s < 2) (hv : val < 2 ^ 32) :
    (if s = 0
      then (wstep (wstep Virtio.new VIRTIO_DRIVER_FEATURES_SEL s ASize.word)
        VIRTIO_DRIVER_FEATURES val ASize.word).driver_features0
      else (wstep (wstep Virtio.new VIRTIO_DRIVER_FEATURES_SEL s ASize.word)
        VIRTIO_DRIVER_FEATURES val ASize.word).driver_features1) = val ∧
    Virtio.read (wstep (wstep Virtio.new VIRTIO_DRIVER_FEATURES_SEL s ASize.word)
      VIRTIO_DRIVER_FEATURES val ASize.word) VIRTIO_DRIVER_FEATURES ASize.word
      = MRes.err Exception.loadAccessFault ∧
    Virtio.write Virtio.new VIRTIO_DEVICE_FEATURES val ASize.word
      = MRes.err Exception.storeAMOAccessFault := by
  interval_cases s <;>
    · refine ⟨?_, rfl, rfl⟩
      show val % 2 ^ 32 = val
      exact Nat.mod_eq_of_lt hv

/-- Witness for C5: selector 1, value 7. -/
theorem driver_feature_word_stored_not_readable_witness :
    (if (1 : Nat) = 0
      then (wstep (wstep Virtio.new VIRTIO_DRIVER_FEATURES_SEL 1 ASize.word)
        VIRTIO_DRIVER_FEATURES 7 ASize.word).driver_features0
      else (wstep (wstep Virtio.new VIRTIO_DRIVER_FEATURES_SEL 1 ASize.word)
        VIRTIO_DRIVER_FEATURES 7 ASize.word).driver_features1) = 7 ∧
    Virtio.read (wstep (wstep Virtio.new VIRTIO_DRIVER_FEATURES_SEL 1 ASize.word)
      VIRTIO_DRIVER_FEATURES 7 ASize.word) VIRTIO_DRIVER_FEATURES ASize.word
      = MRes.err Exception.loadAccessFault ∧
    Virtio.write Virtio.new VIRTIO_DEVICE_FEATURES 7 ASize.word
      = MRes.err Exception.storeAMOAccessFault :=
  driver_feature_word_stored_not_readable 1 7 (by decide) (by decide)

/-- Every non-doubleword write to the Queue Notify register stores the value
truncated to 32 bits. -/
theorem write_notify (d : Virtio) (value : Nat) (s : ASize) (hs : s ≠ ASize.doubleword) :
    Virtio.write d VIRTIO_QUEUE_NOTIFY value s
      = MRes.ok { d with queue_notify := value % 2 ^ 32 } := by
  cases s <;> first | exact absurd rfl hs | rfl

/-- Claim C10: the 9999 sentinel collides with a legitimate notify value at the
public interface — writing 9999 to Queue Notify succeeds but leaves
`is_interrupting` false, writing any other 32-bit value makes the next
`is_interrupting` call true, and a fresh device starts with `is_interrupting`
false because queue_notify is initialized to 9999. -/
theorem queue_notify_sentinel_collision (d : Virtio) (s : ASize) (v : Nat)
    (hs : s ≠ ASize.doubleword) (hv : v < 2 ^ 32) (hne : v ≠ 9999) :
    Virtio.write d VIRTIO_QUEUE_NOTIFY 9999 s = MRes.ok { d with queue_notify := 9999 } ∧
    (Virtio.is_interrupting { d with queue_notify := 9999 }).1 = false ∧
    Virtio.write d VIRTIO_QUEUE_NOTIFY v s = MRes.ok { d with queue_notify := v } ∧
    (Virtio.is_interrupting { d with queue_notify := v }).1 = true ∧
    (Virtio.is_interrupting Virtio.new).1 = false := by
  refine ⟨?_, rfl, ?_, ?_, rfl⟩
  · rw [write_notify d 9999 s hs]
    norm_num
  · rw [write_notify d v s hs, Nat.mod_eq_of_lt hv]
  · simp [Virtio.is_interrupting, hne]

/-- Witness for C10: a fresh device, word width, value 0. -/
theorem queue_notify_sentinel_collision_witness :
    Virtio.write Virtio.new VIRTIO_QUEUE_NOTIFY 9999 ASize.word
      = MRes.ok { Virtio.new with queue_notify := 9999 } ∧
    (Virtio.is_interrupting { Virtio.new with queue_notify := 9999 }).1 = false ∧
    Virtio.write Virtio.new VIRTIO_QUEUE_NOTIFY 0 ASize.word
      = MRes.ok { Virtio.new with queue_notify := 0 } ∧
    (Virtio.is_interrupting { Virtio.new with queue_notify := 0 }).1 = true ∧
    (Virtio.is_interrupting Virtio.new).1 = false :=
  queue_notify_sentinel_collision Virtio.new ASize.word 0 (by decide) (by decide) (by decide)

/-- Device for the C8 scenarios: guest page size 4096 and queue PFN 1 set over
MMIO; the backing store is overridden per scenario. -/
def v48 : Virtio :=
  wstep (wstep Virtio.new VIRTIO_GUEST_PAGE_SIZE 4096 ASize.word)
    VIRTIO_QUEUE_PFN 1 ASize.word

/-- The known 16-byte pattern stored in backing-store sector 3 for the reverse
scenario: bytes 0xC0..0xCF. -/
def pat16 : List Nat := (List.range 16).map (fun i => 0xC0 + i)

/-- C8 forward machine: 1024-byte zeroed backing store; data descriptor with
write-direction bit clear (flags 1), length 16, source bytes 0xBB, sector 1. -/
def M8f : Machine :=
  ⟨{ v48 with disk := List.replicate 1024 0 }, chainMem 1 1 16 (List.replicate 16 0xBB)⟩

/-- The backing store of the reverse scenario: 2048 bytes, all zero except
sector 3 (offset 1536) which starts with the 16-byte pattern. -/
def disk8r : List Nat := List.replicate 1536 0 ++ (pat16 ++ List.replicate 496 0)

/-- C8 reverse machine: data descriptor with write-direction bit set (flags 2),
length 16, sector 3, guest data window initially zero. -/
def M8r : Machine :=
  ⟨{ v48 with disk := disk8r }, chainMem 3 2 16 (List.replicate 512 0)⟩

/-- Data-region lookup through the chain memory after the status write: the
byte at 1024 + j is the j-th data byte. -/
theorem chainMem_status_data (sector flags1 len1 : Nat) (dataBytes : List Nat)
    (j : Nat) (hj : j < 512) :
    memUpdate (chainMem sector flags1 len1 dataBytes) 48 0 (1024 + j)
      = some (dataBytes.getD j 0) := by
  simp only [memUpdate]
  rw [if_neg (by omega)]
  simp only [chainMem]
  rw [if_neg (by omega), if_neg (by omega),
    if_pos (⟨by omega, by omega⟩ : 1024 ≤ 1024 + j ∧ 1024 + j < 1536),
    Nat.add_sub_cancel_left]

theorem mem1C8f_data (j : Nat) (hj : j < 16) :
    memUpdate M8f.mem 48 0 (1024 + j) = some 0xBB := by
  have h := chainMem_status_data 1 1 16 (List.replicate 16 0xBB) j (by omega)
  rw [getD_replicate_lt _ _ _ _ hj] at h
  exact h

theorem mem1C8r_data (j : Nat) (hj : j < 512) :
    memUpdate M8r.mem 48 0 (1024 + j) = some 0 := by
  have h := chainMem_status_data 3 2 16 (List.replicate 512 0) j hj
  rw [getD_replicate_lt _ _ _ _ hj] at h
  exact h

/-- Length of the reverse backing store. -/
theorem disk8r_length : disk8r.length = 2048 := by
  simp only [disk8r, pat16, List.length_append, List.length_replicate,
    List.length_map, List.length_range]

/-- The sector-3 bytes of the reverse backing store are the pattern. -/
theorem disk8r_pat (j : Nat) (hj : j < 16) : disk8r[1536 + j]? = some (0xC0 + j) := by
  simp only [disk8r]
  rw [List.getElem?_append_right (by simp)]
  simp only [List.length_replicate, Nat.add_sub_cancel_left]
  rw [List.getElem?_append, if_pos (by simp [pat16]; omega)]
  simp [pat16, List.getElem?_map, List.getElem?_range, hj]

/-- Completion write at used-ring base 8192 on a memory whose two used-index
bytes are mapped: `daFinish` succeeds and updates exactly those two bytes. -/
theorem daFinish8192_ok (v : Virtio) (mem : GMem) (b1 b2 : Nat)
    (h1 : mem 8194 = some b1) (h2 : mem 8195 = some b2) :
    daFinish v mem 8192 = RRes.ok ⟨{ v with id := (v.id + 1) % W64 },
      memUpdate (memUpdate mem 8194 ((v.id + 1) % W64 % QUEUE_SIZE)) 8195
        ((v.id + 1) % W64 % QUEUE_SIZE / 256)⟩ := by
  simp only [daFinish, Virtio.get_new_id]
  rw [show wadd 8192 2 = 8194 from rfl]
  simp only [busWriteBytes]
  rw [h1]
  rw [show wadd 8194 1 = 8195 from rfl]
  simp only [memUpdate]
  rw [if_neg (by decide : ¬(8195 = 8194))]
  rw [h2]

/-- Claim C8: transfer direction is decided by bit 1 of the data descriptor's
flags. In general: the guest-to-device loop (taken when the bit is clear)
stores each of the `count` guest bytes from `dataAddr` at backing-store offset
`sb + j`, and the device-to-guest loop (taken when the bit is set) writes each
backing-store byte from `sb` to guest memory at `dataAddr + j`. Concretely: in
the forward scenario (flags 1, sector 1, 16 source bytes 0xBB) the request
succeeds and backing-store offsets 512..527 hold 0xBB with all other offsets
unchanged; in the reverse scenario (flags 2, sector 3 holding the pattern
0xC0..0xCF) the request succeeds, guest memory at the data descriptor's address
holds that pattern afterwards, and the backing store is unchanged. -/
theorem transfer_direction_by_flag_bit1 :
    (∀ (mem : GMem) (dataAddr sb count : Nat) (disk : List Nat),
      dataAddr + count ≤ W64 → sb + count ≤ disk.length → disk.length ≤ W64 →
      (∀ j, j < count → (mem (dataAddr + j)).isSome = true) →
      ∃ disk2, memToDisk mem dataAddr sb 0 count disk = RRes.ok disk2 ∧
        ∀ j, j < count → disk2[sb + j]? = (mem (dataAddr + j)).map (fun b => b % 256)) ∧
    (∀ (disk : List Nat) (dataAddr sb count : Nat) (mem : GMem),
      dataAddr + count ≤ W64 → sb + count ≤ disk.length → disk.length ≤ W64 →
      (∀ j, j < count → (mem (dataAddr + j)).isSome = true) →
      ∃ mem2, diskToMem disk dataAddr sb 0 count mem = RRes.ok mem2 ∧
        ∀ j, j < count → mem2 (dataAddr + j) = disk[sb + j]?.map (fun b => b % 256)) ∧
    ((Virtio.disk_access M8f).isOk = true ∧
      (∀ j, j < 16 → (Virtio.disk_access M8f).val.virtio.disk[512 + j]? = some 0xBB) ∧
      (∀ k, k < 512 ∨ 528 ≤ k →
        (Virtio.disk_access M8f).val.virtio.disk[k]? = (List.replicate 1024 (0 : Nat))[k]?)) ∧
    ((Virtio.disk_access M8r).isOk = true ∧
      (∀ j, j < 16 → (Virtio.disk_access M8r).val.mem (1024 + j) = some (0xC0 + j)) ∧
      (Virtio.disk_access M8r).val.virtio.disk = disk8r) := by
  refine ⟨?_, ?_, ?_, ?_⟩
  · intro mem dataAddr sb count disk h1 h2 h3 h4
    obtain ⟨disk2, hrun, _, hcopy, _⟩ :=
      memToDisk_ok mem dataAddr sb count 0 disk (by omega) (by omega) h3
        (fun j _ hj => h4 j (by omega))
    exact ⟨disk2, hrun, fun j hj => hcopy j (Nat.zero_le j) (by omega)⟩
  · intro disk dataAddr sb count mem h1 h2 h3 h4
    obtain ⟨mem2, hrun, hcopy, _⟩ :=
      diskToMem_ok disk dataAddr sb count 0 mem (by omega) (by omega) h3
        (fun j _ hj => h4 j (by omega))
    exact ⟨mem2, hrun, fun j hj => hcopy j (Nat.zero_le j) (by omega)⟩
  · obtain ⟨d2, hrun, hlen, hcopy, hkeep⟩ :=
      memToDisk_ok (memUpdate M8f.mem 48 0) 1024 512 16 0 (List.replicate 1024 0)
        (by norm_num [W64]) (by rw [List.length_replicate]; omega)
        (by rw [List.length_replicate]; norm_num [W64])
        (fun j _ hj => by rw [mem1C8f_data j (by omega)]; rfl)
    have hda := disk_access_write_ok M8f ⟨256, 16, 1, 1⟩ ⟨1024, 16, 1, 2⟩ 48
      (memUpdate M8f.mem 48 0) 1 d2 (by rfl) (by rfl) (by decide) hrun
    rw [hda]
    rw [show wadd (wmul M8f.virtio.queue_pfn M8f.virtio.guest_page_size) 4096 = 8192 from rfl]
    rw [daFinish8192_ok _ _ 0 0 rfl rfl]
    refine ⟨rfl, ?_, ?_⟩
    · intro j hj
      show d2[512 + j]? = some 0xBB
      rw [hcopy j (Nat.zero_le j) (by omega), mem1C8f_data j hj]
      rfl
    · intro k hk
      show d2[k]? = (List.replicate 1024 (0 : Nat))[k]?
      exact hkeep k (by omega)
  · obtain ⟨m2, hrun, hcopy, hkeep⟩ :=
      diskToMem_ok disk8r 1024 1536 16 0 (memUpdate M8r.mem 48 0)
        (by norm_num [W64]) (by rw [disk8r_length]; omega)
        (by rw [disk8r_length]; norm_num [W64])
        (fun j _ hj => by rw [mem1C8r_data j (by omega)]; rfl)
    have hda := disk_access_read_ok M8r ⟨256, 16, 1, 1⟩ ⟨1024, 16, 2, 2⟩ 48
      (memUpdate M8r.mem 48 0) 3 m2 (by rfl) (by rfl) (by decide) hrun
    have h8194 : m2 8194 = some 0 := by
      rw [hkeep 8194 (by omega)]
      rfl
    have h8195 : m2 8195 = some 0 := by
      rw [hkeep 8195 (by omega)]
      rfl
    rw [hda]
    rw [show wadd (wmul M8r.virtio.queue_pfn M8r.virtio.guest_page_size) 4096 = 8192 from rfl]
    rw [daFinish8192_ok _ m2 0 0 h8194 h8195]
    refine ⟨rfl, ?_, ?_⟩
    · intro j hj
      show memUpdate (memUpdate m2 8194 _) 8195 _ (1024 + j) = some (0xC0 + j)
      simp only [memUpdate]
      rw [if_neg (by omega : ¬(1024 + j = 8195)), if_neg (by omega : ¬(1024 + j = 8194))]
      rw [hcopy j (Nat.zero_le j) (by omega), disk8r_pat j hj]
      show some ((0xC0 + j) % 256) = some (0xC0 + j)
      rw [Nat.mod_eq_of_lt (by omega)]
    · rfl

/-- A one-point guest memory mapping every byte to 5, for the C8 witness. -/
def constMem5 : GMem := fun _ => some 5

/-- Witness for C8: the guest-to-device loop on one byte over memory constantly
5 and the one-element disk [7] succeeds and stores 5 at offset 0. -/
theorem transfer_direction_by_flag_bit1_witness :
    ∃ disk2, memToDisk constMem5 0 0 0 1 [7] = RRes.ok disk2 ∧
      ∀ j, j < 1 → disk2[0 + j]? = (constMem5 (0 + j)).map (fun b => b % 256) :=
  transfer_direction_by_flag_bit1.1 constMem5 0 0 1 [7]
    (by norm_num [W64]) (by simp) (by simp [W64]) (fun j hj => rfl)

/-- Claim C9: on every request that reaches the status write, the interpreter
has written a zero status byte at the status target address before the data
transfer is performed — `daPhase1` is the prefix of `disk_access` that ends at
the status write and precedes the sector read and the transfer loop, and
whenever it succeeds, the guest memory it hands to the transfer holds 0 at the
status target, for every machine and independently of whether the subsequent
transfer succeeds. -/
theorem status_zero_written_before_transfer (mem : GMem) (dA availA : Nat)
    (d0 d1 : VirtqDesc) (sAddr : Nat) (mem1 : GMem)
    (h : daPhase1 mem dA availA = Except.ok (d0, d1, sAddr, mem1)) :
    mem1 sAddr = some 0 := by
  unfold daPhase1 at h
  cases hA : availHead mem availA with
  | none => rw [hA] at h; exact Except.noConfusion h
  | some p =>
    rw [hA] at h
    obtain ⟨off, idx⟩ := p
    simp only [] at h
    cases hB : VirtqDesc.new mem (wadd dA (wmul VRING_DESC_SIZE idx)) with
    | none => rw [hB] at h; exact Except.noConfusion h
    | some desc0 =>
      rw [hB] at h
      simp only [] at h
      cases hC : VirtqDesc.new mem (wadd dA (wmul VRING_DESC_SIZE desc0.next)) with
      | none => rw [hC] at h; exact Except.noConfusion h
      | some desc1 =>
        rw [hC] at h
        simp only [] at h
        cases hD : busReadBytes mem (wadd dA (wmul VRING_DESC_SIZE desc1.next)) 8 with
        | none => rw [hD] at h; exact Except.noConfusion h
        | some d2a =>
          rw [hD] at h
          simp only [] at h
          cases hE : busWriteByte mem d2a 0 with
          | none => rw [hE] at h; exact Except.noConfusion h
          | some mem1x =>
            rw [hE] at h
            simp only [Except.ok.injEq, Prod.mk.injEq] at h
            obtain ⟨-, -, rfl, rfl⟩ := h
            unfold busWriteByte at hE
            cases hM : mem d2a with
            | none => rw [hM] at hE; exact Option.noConfusion hE
            | some b =>
              rw [hM] at hE
              injection hE with hE2
              rw [← hE2]
              simp [memUpdate]

/-- Witness for C9: the C1 machine — after its successful walk and status
write, the status byte at address 48 holds 0. -/
theorem status_zero_written_before_transfer_witness :
    memUpdate M1.mem 48 0 48 = some 0 :=
  status_zero_written_before_transfer M1.mem 4096 4160 ⟨256, 16, 1, 1⟩
    ⟨1024, 512, 1, 2⟩ 48 (memUpdate M1.mem 48 0) rfl
